import Mathlib

/-!
Verification of the task synchronization engine of a task-management
application (source: `src/hooks/useTasks.ts`).

The engine owns an in-memory task cache (the current page of tasks plus
pagination metadata), fetches filtered/sorted/paginated pages from an
external Data Service, performs optimistic mutations with rollback, and
merges live insert/update/delete change events into the current view.

The embedding below is a shallow one: each stateful operation of the hook
becomes a pure function from the previous engine state (plus the Data
Service's responses, passed in explicitly) to the next engine state.
JavaScript `number` values that are in practice integers are modelled as
`Int`/`Nat`; nullable fields of the joined view row are modelled as
`Option`; a thrown JavaScript value is modelled by `JsErr` below.
-/

/-- Sort order of the view state (`types/preferences.ts`). -/
inductive SortOrder where
  | newest
  | oldest
  deriving Repr, DecidableEq

/-- Completion filter of the view state (`types/preferences.ts`). -/
inductive CompletionFilter where
  | all
  | active
  | completed
  deriving Repr, DecidableEq

/-- Row of the `tasks_with_user` view: a task joined with its creator's
identity.  `title`, `description` and the creator fields are nullable in
the generated row type and are modelled as `Option`; `id`, `isCompleted`
and `created_at` are never null for a persisted row (data-model invariant)
and are modelled as plain values.  `created_at` is a timestamp, modelled
as an integer. -/
structure TaskWithUser where
  id : Int := 0
  title : Option String := none
  description : Option String := none
  isCompleted : Bool := false
  created_at : Int := 0
  createdBy : String := ""
  creator_first_name : Option String := none
  creator_last_name : Option String := none
  creator_email : Option String := none
  deriving Repr, DecidableEq

/-- Partial update sent to `updateTask` (`TaskUpdate`): each field is
either absent (`none`) or supplies a new value.  `id` and `created_at`
are server-assigned and immutable per the data model, so they do not
appear among the updatable fields. -/
structure TaskUpdate where
  title : Option String := none
  description : Option String := none
  isCompleted : Option Bool := none
  deriving Repr, DecidableEq

/-- The JavaScript object spread `{ ...task, ...updates }`: fields present
in the update override the task's fields. -/
def applyUpdate (t : TaskWithUser) (u : TaskUpdate) : TaskWithUser :=
  { t with
    title := match u.title with | some v => some v | none => t.title
    description := match u.description with | some v => some v | none => t.description
    isCompleted := match u.isCompleted with | some v => v | none => t.isCompleted }

/-- A thrown JavaScript value, as observed by the hook's `catch` blocks:
`some m` models a value that is an `Error` instance with message `m`
(e.g. `new Error("Task not found")`, or a Data Service error object that
extends `Error`); `none` models a thrown value that is not an `Error`
instance. -/
def JsErr := Option String
  deriving Repr, DecidableEq

/-- The hook's uniform error translation
`err instanceof Error ? err.message : fallback`. -/
def jsMessage (e : JsErr) (fallback : String) : String :=
  match e with
  | some m => m
  | none => fallback

/-- Pagination metadata (`PaginationInfo` in the source). -/
structure PaginationInfo where
  currentPage : Nat
  totalPages : Nat
  totalCount : Nat
  pageSize : Nat
  hasNextPage : Bool
  hasPrevPage : Bool
  deriving Repr, DecidableEq

/-- The engine state owned by the hook: the task cache (`tasks`), the
surfaced error message (`error`), the loading flag, and the pagination
metadata. -/
structure EngineState where
  tasks : List TaskWithUser
  error : Option String
  isLoading : Bool
  pagination : PaginationInfo
  deriving Repr, DecidableEq

/-- The view-state options of the hook (`UseTasksOptions`), with the
source's defaults. -/
structure UseTasksOptions where
  searchTerm : String := ""
  sortOrder : SortOrder := .newest
  completionFilter : CompletionFilter := .all
  page : Nat := 1
  pageSize : Nat := 10
  deriving Repr, DecidableEq

/-- Ceiling division on naturals: `Math.ceil(a / b)` for nonnegative
integer `a` and positive integer `b`. -/
def ceilDiv (a b : Nat) : Nat := (a + b - 1) / b

/-- `Math.ceil(total / pageSize) || 1` (source line 70): the `|| 1`
replaces a zero page count (which arises exactly when `total = 0`) by 1. -/
def computeTotalPages (total pageSize : Nat) : Nat :=
  let c := ceilDiv total pageSize
  if c = 0 then 1 else c

/-- Helper for substring search: does the second character list start
with the first one? -/
def leadsWith : List Char → List Char → Bool
  | [], _ => true
  | _ :: _, [] => false
  | x :: xs, y :: ys => x == y && leadsWith xs ys

/-- Helper for substring search: does the character list contain the
pattern as a contiguous run? -/
def containsChars (pat : List Char) : List Char → Bool
  | [] => pat.isEmpty
  | c :: tl => leadsWith pat (c :: tl) || containsChars pat tl

/-- JavaScript `hay.includes(pat)`: substring containment, true for the
empty pattern. -/
def strIncludes (hay pat : String) : Bool :=
  containsChars pat.data hay.data

/-- JavaScript `s.toLowerCase()`, modelled characterwise. -/
def strLower (s : String) : String :=
  String.mk (s.data.map Char.toLower)

/-- JavaScript `s.trim()`: strip whitespace from both ends. -/
def strTrim (s : String) : String :=
  String.mk (((s.data.dropWhile Char.isWhitespace).reverse.dropWhile Char.isWhitespace).reverse)

/-- The case-insensitive search test used by the realtime handlers
(source lines 266-272 and 319-325): lowercase the search term and check
substring containment in the lowercased `title` or `description`; a null
field contributes `false` (the `?.` plus `|| false` in the source). -/
def matchesSearch (searchTerm : String) (t : TaskWithUser) : Bool :=
  let searchLower := strLower searchTerm
  (match t.title with
   | some s => strIncludes (strLower s) searchLower
   | none => false)
  ||
  (match t.description with
   | some s => strIncludes (strLower s) searchLower
   | none => false)

/-- Server-side row filter applied by both the count query and the data
query (source lines 53-64 and 79-90): the completion filter translates to
an equality test on `isCompleted`, and a non-blank search term to a
case-insensitive substring match (`ilike '%term%'`) on `title` or
`description`. -/
def rowMatchesQuery (v : UseTasksOptions) (t : TaskWithUser) : Bool :=
  (match v.completionFilter with
   | .active => t.isCompleted == false
   | .completed => t.isCompleted == true
   | .all => true)
  && (if (strTrim v.searchTerm) != "" then matchesSearch v.searchTerm t else true)

/-- Insertion by `created_at` used to model the data query's
`order("created_at", { ascending })`. -/
def insertByCreated (asc : Bool) (x : TaskWithUser) : List TaskWithUser → List TaskWithUser
  | [] => [x]
  | y :: ys =>
    if (if asc then x.created_at ≤ y.created_at else y.created_at ≤ x.created_at) then
      x :: y :: ys
    else
      y :: insertByCreated asc x ys

/-- The data query's sort: ascending by `created_at` exactly when the sort
order is `oldest` (source line 93). -/
def sortTasks (so : SortOrder) (l : List TaskWithUser) : List TaskWithUser :=
  l.foldr (insertByCreated (so == SortOrder.oldest)) []

/-- `range(from, to)` of the Data Service: the inclusive index window
`[f, t]` of the result sequence. -/
def querySlice (l : List TaskWithUser) (f t : Nat) : List TaskWithUser :=
  (l.drop f).take (t + 1 - f)

/-- The Data Service's response to the hook's data query over a database
`db`: filter, sort, then slice to the requested inclusive range. -/
def runDataQuery (v : UseTasksOptions) (db : List TaskWithUser) (f t : Nat) :
    Except JsErr (List TaskWithUser) :=
  .ok (querySlice (sortTasks v.sortOrder (db.filter (rowMatchesQuery v))) f t)

/-- `fetchTasks` (source lines 45-124) as a function of the previous
engine state and the Data Service's two responses.  `countRes` is the
count query's outcome (`none` inside `.ok` models a null count, handled
by `totalCount || 0`); `dataRes f t` is the data query's outcome for the
requested inclusive range `[f, t]`.  The second component of the result
records the range actually requested from the Data Service (`none` when
the fetch aborted before issuing the data query). -/
def fetchTasks (st : EngineState) (v : UseTasksOptions)
    (countRes : Except JsErr (Option Nat))
    (dataRes : Nat → Nat → Except JsErr (List TaskWithUser)) :
    EngineState × Option (Nat × Nat) :=
  let st := { st with isLoading := true, error := none }
  match countRes with
  | .error e =>
    ({ st with error := some (jsMessage e "Failed to fetch tasks"), isLoading := false }, none)
  | .ok totalCount =>
    let total := totalCount.getD 0
    let totalPages := computeTotalPages total v.pageSize
    let validPage := min v.page totalPages
    let actualPage := max 1 validPage
    let f := (actualPage - 1) * v.pageSize
    let t := f + v.pageSize - 1
    match dataRes f t with
    | .error e =>
      ({ st with error := some (jsMessage e "Failed to fetch tasks"), isLoading := false },
       some (f, t))
    | .ok data =>
      ({ st with
          tasks := data
          pagination :=
            { currentPage := actualPage
              totalPages := totalPages
              totalCount := total
              pageSize := v.pageSize
              hasNextPage := actualPage < totalPages
              hasPrevPage := actualPage > 1 }
          isLoading := false }, some (f, t))

/-- Result of a mutation operation: the next engine state, plus an
observation of whether the operation issued a request to the Data
Service (`remoteCalled`). -/
structure MutResult where
  state : EngineState
  remoteCalled : Bool
  deriving Repr, DecidableEq

/-- `updateTask` (source lines 147-183): requires the id to be in the
cache (else surfaces `Error("Task not found")` without a server call),
optimistically applies the partial update, and on Data Service failure
restores the snapshot captured before the optimistic patch. -/
def updateTask (st : EngineState) (id : Int) (updates : TaskUpdate)
    (serverRes : Except JsErr Unit) : MutResult :=
  let st := { st with error := none }
  match st.tasks.find? (fun t => t.id == id) with
  | none => ⟨{ st with error := some "Task not found" }, false⟩
  | some originalTask =>
    let optimistic := st.tasks.map (fun t => if t.id == id then applyUpdate t updates else t)
    match serverRes with
    | .ok _ => ⟨{ st with tasks := optimistic }, true⟩
    | .error e =>
      ⟨{ st with
          tasks := optimistic.map (fun t => if t.id == id then originalTask else t)
          error := some (jsMessage e "Failed to update task") }, true⟩

/-- `deleteTask` (source lines 185-210): requires the id to be in the
cache, optimistically removes it, and on Data Service failure re-appends
the removed snapshot at the tail. -/
def deleteTask (st : EngineState) (id : Int)
    (serverRes : Except JsErr Unit) : MutResult :=
  let st := { st with error := none }
  match st.tasks.find? (fun t => t.id == id) with
  | none => ⟨{ st with error := some "Task not found" }, false⟩
  | some taskToDelete =>
    let optimistic := st.tasks.filter (fun t => !(t.id == id))
    match serverRes with
    | .ok _ => ⟨{ st with tasks := optimistic }, true⟩
    | .error e =>
      ⟨{ st with
          tasks := optimistic ++ [taskToDelete]
          error := some (jsMessage e "Failed to delete task") }, true⟩

/-- `toggleTask` (source lines 212-244): performs no existence check;
optimistically sets `isCompleted` of the matching entry to the negation
of the passed-in value, always issues the server update, and on failure
sets `isCompleted` back to the passed-in value. -/
def toggleTask (st : EngineState) (id : Int) (isCompleted : Bool)
    (serverRes : Except JsErr Unit) : MutResult :=
  let st := { st with error := none }
  let optimistic :=
    st.tasks.map (fun t => if t.id == id then { t with isCompleted := !isCompleted } else t)
  match serverRes with
  | .ok _ => ⟨{ st with tasks := optimistic }, true⟩
  | .error e =>
    ⟨{ st with
        tasks := optimistic.map
          (fun t => if t.id == id then { t with isCompleted := isCompleted } else t)
        error := some (jsMessage e "Failed to toggle task") }, true⟩

/-- `handleRealtimeInsert` (source lines 251-297) as a function of the
view options, the previous engine state, and the result of re-fetching
the joined row for the inserted id (`none` models both a fetch failure
and an absent row; the handler returns early in that case).  The
deduplication guard `newTask.id && ...` tests JavaScript truthiness of
the numeric id, i.e. it is skipped when the id is 0. -/
def handleRealtimeInsert (v : UseTasksOptions) (st : EngineState)
    (fetched : Option TaskWithUser) : EngineState :=
  match fetched with
  | none => st
  | some newTask =>
    if v.completionFilter == CompletionFilter.active && newTask.isCompleted == true then st
    else if v.completionFilter == CompletionFilter.completed && !(newTask.isCompleted == true) then st
    else if (strTrim v.searchTerm) != "" && !(matchesSearch v.searchTerm newTask) then st
    else
      let newTasks :=
        if newTask.id != 0 && st.tasks.any (fun t => t.id == newTask.id) then st.tasks
        else
          let updatedTasks :=
            if v.sortOrder == SortOrder.newest then newTask :: st.tasks
            else st.tasks ++ [newTask]
          let f := (v.page - 1) * v.pageSize
          let t := f + v.pageSize
          (updatedTasks.drop f).take (t - f)
      let p := st.pagination
      { st with
        tasks := newTasks
        pagination :=
          { p with
            totalCount := p.totalCount + 1
            totalPages := ceilDiv (p.totalCount + 1) p.pageSize } }

/-- `handleRealtimeUpdate` (source lines 300-347): re-fetch the joined
row; if it no longer matches the active filters, remove it by id and
decrement the count (`Math.max(0, c - 1)` is truncated subtraction on
`Nat`), otherwise replace the matching entry in place. -/
def handleRealtimeUpdate (v : UseTasksOptions) (st : EngineState) (taskId : Int)
    (fetched : Option TaskWithUser) : EngineState :=
  match fetched with
  | none => st
  | some updatedTask =>
    let removeByCompletion :=
      (v.completionFilter == CompletionFilter.active && updatedTask.isCompleted == true)
      || (v.completionFilter == CompletionFilter.completed && updatedTask.isCompleted == false)
    let shouldRemove :=
      if !removeByCompletion && (strTrim v.searchTerm) != "" then
        !(matchesSearch v.searchTerm updatedTask)
      else removeByCompletion
    if shouldRemove then
      { st with
        tasks := st.tasks.filter (fun t => !(t.id == taskId))
        pagination :=
          { st.pagination with
            totalCount := st.pagination.totalCount - 1
            totalPages := ceilDiv (st.pagination.totalCount - 1) st.pagination.pageSize } }
    else
      { st with tasks := st.tasks.map (fun t => if t.id == taskId then updatedTask else t) }

/-- `handleRealtimeDelete` (source lines 350-363): remove the entry by id
if present and decrement the count (floored at 0 by `Nat` subtraction),
recomputing `totalPages` without any minimum-1 floor. -/
def handleRealtimeDelete (st : EngineState) (deletedTaskId : Int) : EngineState :=
  { st with
    tasks := st.tasks.filter (fun t => !(t.id == deletedTaskId))
    pagination :=
      { st.pagination with
        totalCount := st.pagination.totalCount - 1
        totalPages := ceilDiv (st.pagination.totalCount - 1) st.pagination.pageSize } }

/-- The pagination/cache consistency relation of the spec's data model,
weakened to what the code maintains: the cache never exceeds `pageSize`
entries, and `totalPages` is the exact ceiling `totalCount / pageSize` —
except that a fetch with zero matching rows sets `totalPages = 1`. -/
def stateConsistent (st : EngineState) : Prop :=
  st.tasks.length ≤ st.pagination.pageSize
  ∧ (st.pagination.totalPages = ceilDiv st.pagination.totalCount st.pagination.pageSize
     ∨ (st.pagination.totalCount = 0 ∧ st.pagination.totalPages = 1))

instance (st : EngineState) : Decidable (stateConsistent st) := by
  unfold stateConsistent
  infer_instance

/-! ## Helper lemmas -/

theorem computeTotalPages_pos (total ps : Nat) : 1 ≤ computeTotalPages total ps := by
  unfold computeTotalPages
  dsimp only
  split
  · exact le_refl 1
  · omega

theorem ceilDiv_pos {a b : Nat} (ha : 0 < a) (hb : 0 < b) : 0 < ceilDiv a b := by
  unfold ceilDiv
  exact Nat.div_pos (by omega) hb

theorem applyUpdate_id (t : TaskWithUser) (u : TaskUpdate) : (applyUpdate t u).id = t.id := rfl

/-! ## C1 -/

/-- C1: for every fetch whose count query succeeds, the served page is at
least 1; whenever the requested page exceeds the total number of pages
(which is always positive), the served page equals the total number of
pages; and the window of the data request issued to the Data Service is
exactly `[(servedPage-1)*pageSize, servedPage*pageSize - 1]`. -/
theorem fetchTasks_page_clamp (st : EngineState) (v : UseTasksOptions) (total : Nat)
    (data : List TaskWithUser) :
    1 ≤ (fetchTasks st v (.ok (some total)) (fun _ _ => .ok data)).1.pagination.currentPage
    ∧ ((fetchTasks st v (.ok (some total)) (fun _ _ => .ok data)).1.pagination.totalPages < v.page →
        (fetchTasks st v (.ok (some total)) (fun _ _ => .ok data)).1.pagination.currentPage
          = (fetchTasks st v (.ok (some total)) (fun _ _ => .ok data)).1.pagination.totalPages)
    ∧ (fetchTasks st v (.ok (some total)) (fun _ _ => .ok data)).2
        = some
          (((fetchTasks st v (.ok (some total)) (fun _ _ => .ok data)).1.pagination.currentPage - 1)
              * v.pageSize,
           (fetchTasks st v (.ok (some total)) (fun _ _ => .ok data)).1.pagination.currentPage
              * v.pageSize - 1) := by
  simp only [fetchTasks, Option.getD]
  refine ⟨le_max_left 1 _, fun h => ?_, ?_⟩
  · rw [min_eq_right (le_of_lt h), max_eq_right (computeTotalPages_pos total v.pageSize)]
  · have h1 : 1 ≤ max 1 (min v.page (computeTotalPages total v.pageSize)) := le_max_left 1 _
    obtain ⟨k, hk⟩ : ∃ k, max 1 (min v.page (computeTotalPages total v.pageSize)) = k + 1 :=
      ⟨_ - 1, (Nat.succ_pred_eq_of_pos h1).symm⟩
    rw [hk]
    have : (k + 1) * v.pageSize = k * v.pageSize + v.pageSize := Nat.succ_mul k v.pageSize
    simp only [Nat.add_sub_cancel, this]

def fetchClampSt : EngineState :=
  { tasks := [], error := none, isLoading := false,
    pagination := { currentPage := 1, totalPages := 1, totalCount := 0, pageSize := 3,
                    hasNextPage := false, hasPrevPage := false } }

def fetchClampOpts : UseTasksOptions := { page := 9, pageSize := 3 }

/-- Witness for `fetchTasks_page_clamp`: requesting page 9 of 7 items at
page size 3 (3 total pages) serves page 3. -/
theorem fetchTasks_page_clamp_witness :
    (fetchTasks fetchClampSt fetchClampOpts (.ok (some 7)) (fun _ _ => .ok [])).1.pagination.totalPages
        < fetchClampOpts.page
    ∧ (fetchTasks fetchClampSt fetchClampOpts (.ok (some 7)) (fun _ _ => .ok [])).1.pagination.currentPage
        = (fetchTasks fetchClampSt fetchClampOpts (.ok (some 7)) (fun _ _ => .ok [])).1.pagination.totalPages :=
  ⟨by decide, (fetchTasks_page_clamp fetchClampSt fetchClampOpts 7 []).2.1 (by decide)⟩

/-! ## C6 -/

/-- C6: a failure of the count query or of the data query aborts the
whole fetch: the task cache and the pagination metadata retain exactly
their previous values, and the failure's message (with fallback
"Failed to fetch tasks") is surfaced in engine state. -/
theorem fetchTasks_failure_preserves_cache (st : EngineState) (v : UseTasksOptions)
    (e : JsErr) (count : Option Nat)
    (dataRes : Nat → Nat → Except JsErr (List TaskWithUser)) :
    (fetchTasks st v (.error e) dataRes).1.tasks = st.tasks
    ∧ (fetchTasks st v (.error e) dataRes).1.pagination = st.pagination
    ∧ (fetchTasks st v (.error e) dataRes).1.error
        = some (jsMessage e "Failed to fetch tasks")
    ∧ (fetchTasks st v (.ok count) (fun _ _ => .error e)).1.tasks = st.tasks
    ∧ (fetchTasks st v (.ok count) (fun _ _ => .error e)).1.pagination = st.pagination
    ∧ (fetchTasks st v (.ok count) (fun _ _ => .error e)).1.error
        = some (jsMessage e "Failed to fetch tasks") := by
  simp [fetchTasks]

/-! ## C9 -/

/-- C9: the optimistic phase of `toggle(id, currentIsCompleted)` sets the
matching entry's `isCompleted` to the negation of the passed-in value,
and the rollback on Data Service failure sets it back to exactly the
passed-in value — regardless of what the cache held before the call
(the rollback target is not re-derived from the cache). -/
theorem toggleTask_optimistic_rollback (st : EngineState) (id : Int) (cur : Bool) (e : JsErr) :
    (∀ t ∈ (toggleTask st id cur (.ok ())).state.tasks, t.id = id → t.isCompleted = !cur)
    ∧ (∀ t ∈ (toggleTask st id cur (.error e)).state.tasks, t.id = id → t.isCompleted = cur) := by
  constructor
  · intro t ht hid
    simp only [toggleTask] at ht
    rcases List.mem_map.1 ht with ⟨x, hx, rfl⟩
    by_cases h : x.id = id
    · simp [beq_iff_eq, h]
    · simp only [beq_iff_eq, if_neg h] at hid ⊢
      exact absurd hid h
  · intro t ht hid
    simp only [toggleTask] at ht
    rcases List.mem_map.1 ht with ⟨y, hy, rfl⟩
    by_cases h : y.id = id
    · simp [beq_iff_eq, h]
    · simp only [beq_iff_eq, if_neg h] at hid ⊢
      exact absurd hid h

def toggleWitSt : EngineState :=
  { tasks := [{ id := 1, title := some "a", isCompleted := true }], error := none,
    isLoading := false,
    pagination := { currentPage := 1, totalPages := 1, totalCount := 1, pageSize := 10,
                    hasNextPage := false, hasPrevPage := false } }

/-- Witness for `toggleTask_optimistic_rollback`: toggling id 1 with
passed-in value `false` optimistically yields `isCompleted = true`, and
the rollback yields `isCompleted = false` even though the cache held
`true` before the call. -/
theorem toggleTask_optimistic_rollback_witness :
    ({ id := 1, title := some "a", isCompleted := true } : TaskWithUser)
        ∈ toggleWitSt.tasks
    ∧ (∀ t ∈ (toggleTask toggleWitSt 1 false (.ok ())).state.tasks,
        t.id = 1 → t.isCompleted = !false)
    ∧ (∀ t ∈ (toggleTask toggleWitSt 1 false (.error (some "x"))).state.tasks,
        t.id = 1 → t.isCompleted = false) :=
  ⟨by decide,
   (toggleTask_optimistic_rollback toggleWitSt 1 false (some "x")).1,
   (toggleTask_optimistic_rollback toggleWitSt 1 false (some "x")).2⟩

/-! ## C4 -/

theorem find?_map_restore (l : List TaskWithUser) (id : Int) (orig : TaskWithUser)
    (h : l.find? (fun t => t.id == id) = some orig) :
    (l.map (fun t => if t.id == id then orig else t)).find? (fun t => t.id == id)
      = some orig := by
  induction l with
  | nil => simp at h
  | cons x xs ih =>
    by_cases hx : x.id = id
    · have hxb : (x.id == id) = true := beq_iff_eq.2 hx
      simp only [List.find?_cons, hxb, cond_true] at h
      have horig : orig = x := (Option.some_inj.1 h).symm
      have hob : (orig.id == id) = true := by rw [horig]; exact hxb
      rw [List.map_cons, if_pos hxb]
      simp only [List.find?_cons, hob, cond_true]
    · have hxb : (x.id == id) = false := beq_eq_false_iff_ne.2 hx
      simp only [List.find?_cons, hxb, cond_false] at h
      rw [List.map_cons, if_neg (by simp [hxb])]
      simp only [List.find?_cons, hxb, cond_false]
      exact ih h

theorem map_restore_nodup (l : List TaskWithUser) (id : Int) (orig : TaskWithUser)
    (h : l.find? (fun t => t.id == id) = some orig)
    (hnd : (l.map TaskWithUser.id).Nodup) :
    l.map (fun t => if t.id == id then orig else t) = l := by
  induction l with
  | nil => rfl
  | cons x xs ih =>
    simp only [List.map_cons, List.nodup_cons] at hnd
    by_cases hx : x.id = id
    · have hxb : (x.id == id) = true := beq_iff_eq.2 hx
      simp only [List.find?_cons, hxb, cond_true] at h
      have horig : orig = x := (Option.some_inj.1 h).symm
      rw [List.map_cons, if_pos hxb, horig]
      congr 1
      have hmem : ∀ t ∈ xs, (if t.id == id then x else t) = t := by
        intro t htmem
        have hne : t.id ≠ id := by
          intro hc
          apply hnd.1
          rw [hx, ← hc]
          exact List.mem_map_of_mem TaskWithUser.id htmem
        rw [if_neg (by simp [beq_eq_false_iff_ne.2 hne])]
      calc List.map (fun t => if t.id == id then x else t) xs
          = List.map (fun t => t) xs := List.map_congr_left hmem
        _ = xs := List.map_id xs
    · have hxb : (x.id == id) = false := beq_eq_false_iff_ne.2 hx
      simp only [List.find?_cons, hxb, cond_false] at h
      rw [List.map_cons, if_neg (by simp [hxb]), ih h hnd.2]

/-- C4: when a task with the given id exists in the cache and the Data
Service update fails, the cache entry for that id after rollback is
exactly the snapshot captured before the optimistic patch; under the
data model's id-uniqueness the whole cache is restored, so
optimistic-apply followed by rollback is the identity on that entry. -/
theorem updateTask_rollback_restores_snapshot (st : EngineState) (id : Int)
    (u : TaskUpdate) (e : JsErr) (orig : TaskWithUser)
    (h : st.tasks.find? (fun t => t.id == id) = some orig) :
    (updateTask st id u (.error e)).state.tasks.find? (fun t => t.id == id) = some orig
    ∧ ((st.tasks.map TaskWithUser.id).Nodup →
        (updateTask st id u (.error e)).state.tasks = st.tasks) := by
  have hcomp : (updateTask st id u (.error e)).state.tasks
      = st.tasks.map (fun t => if t.id == id then orig else t) := by
    simp only [updateTask, h, List.map_map]
    refine List.map_congr_left fun x _ => ?_
    by_cases hx : x.id = id
    · have hxb : (x.id == id) = true := beq_iff_eq.2 hx
      have hub : ((applyUpdate x u).id == id) = true := by rw [applyUpdate_id]; exact hxb
      simp [Function.comp, hxb, hub]
    · have hxb : (x.id == id) = false := beq_eq_false_iff_ne.2 hx
      simp [Function.comp, hxb]
  constructor
  · rw [hcomp]
    exact find?_map_restore st.tasks id orig h
  · intro hnd
    rw [hcomp]
    exact map_restore_nodup st.tasks id orig h hnd

def updWitTask1 : TaskWithUser := { id := 1, title := some "Alpha" }

def updWitTask2 : TaskWithUser := { id := 2, title := some "Beta" }

def updWitSt : EngineState :=
  { tasks := [updWitTask1, updWitTask2], error := none, isLoading := false,
    pagination := { currentPage := 1, totalPages := 1, totalCount := 2, pageSize := 10,
                    hasNextPage := false, hasPrevPage := false } }

/-- Witness for `updateTask_rollback_restores_snapshot`: updating id 1
with a new title and failing at the Data Service leaves the cache equal
to its pre-update value. -/
theorem updateTask_rollback_restores_snapshot_witness :
    updWitSt.tasks.find? (fun t => t.id == 1) = some updWitTask1
    ∧ (updateTask updWitSt 1 { title := some "X" } (.error (some "boom"))).state.tasks.find?
        (fun t => t.id == 1) = some updWitTask1
    ∧ (updateTask updWitSt 1 { title := some "X" } (.error (some "boom"))).state.tasks
        = updWitSt.tasks :=
  ⟨by decide,
   (updateTask_rollback_restores_snapshot updWitSt 1 { title := some "X" } (some "boom")
      updWitTask1 (by decide)).1,
   (updateTask_rollback_restores_snapshot updWitSt 1 { title := some "X" } (some "boom")
      updWitTask1 (by decide)).2 (by decide)⟩

/-! ## C2 -/

/-- C2: an insert event whose re-fetched row fails the active completion
filter or the case-insensitive substring search is discarded with the
whole state (in particular `totalCount`) unchanged; otherwise, when its
id is not already present, the row is inserted at the head for
newest-first sort (tail for oldest-first), the cache is truncated to the
window `[(page-1)*pageSize, page*pageSize)` of the extended list,
`totalCount` is incremented and `totalPages` recomputed. -/
theorem handleRealtimeInsert_merge (v : UseTasksOptions) (st : EngineState)
    (nt : TaskWithUser) (hpage : 1 ≤ v.page) :
    ((v.completionFilter == CompletionFilter.active && nt.isCompleted == true) = true →
        handleRealtimeInsert v st (some nt) = st)
    ∧ ((v.completionFilter == CompletionFilter.completed && !(nt.isCompleted == true)) = true →
        handleRealtimeInsert v st (some nt) = st)
    ∧ ((strTrim v.searchTerm != "" && !(matchesSearch v.searchTerm nt)) = true →
        handleRealtimeInsert v st (some nt) = st)
    ∧ ((v.completionFilter == CompletionFilter.active && nt.isCompleted == true) = false →
       (v.completionFilter == CompletionFilter.completed && !(nt.isCompleted == true)) = false →
       (strTrim v.searchTerm != "" && !(matchesSearch v.searchTerm nt)) = false →
       st.tasks.any (fun t => t.id == nt.id) = false →
        (handleRealtimeInsert v st (some nt)).tasks
          = (((if v.sortOrder == SortOrder.newest then nt :: st.tasks
               else st.tasks ++ [nt]).drop ((v.page - 1) * v.pageSize)).take
              (v.page * v.pageSize - (v.page - 1) * v.pageSize))
        ∧ (handleRealtimeInsert v st (some nt)).pagination.totalCount
            = st.pagination.totalCount + 1
        ∧ (handleRealtimeInsert v st (some nt)).pagination.totalPages
            = ceilDiv (st.pagination.totalCount + 1) st.pagination.pageSize) := by
  have harith : v.page * v.pageSize - (v.page - 1) * v.pageSize = v.pageSize := by
    rcases Nat.exists_eq_add_of_le hpage with ⟨k, hk⟩
    rw [hk]
    have h1 : 1 + k - 1 = k := by omega
    rw [h1, Nat.add_mul, one_mul, Nat.add_comm (v.pageSize) (k * v.pageSize),
      Nat.add_sub_cancel_left]
  refine ⟨fun h1 => ?_, fun h2 => ?_, fun h3 => ?_, fun h1 h2 h3 h4 => ?_⟩
  · simp only [handleRealtimeInsert]
    rw [if_pos h1]
  · simp only [handleRealtimeInsert]
    by_cases c1 : (v.completionFilter == CompletionFilter.active && nt.isCompleted == true) = true
    · rw [if_pos c1]
    · rw [if_neg c1, if_pos h2]
  · simp only [handleRealtimeInsert]
    by_cases c1 : (v.completionFilter == CompletionFilter.active && nt.isCompleted == true) = true
    · rw [if_pos c1]
    · rw [if_neg c1]
      by_cases c2 :
          (v.completionFilter == CompletionFilter.completed && !(nt.isCompleted == true)) = true
      · rw [if_pos c2]
      · rw [if_neg c2, if_pos h3]
  · have hn1 : ¬((v.completionFilter == CompletionFilter.active
        && nt.isCompleted == true) = true) := fun hc => Bool.false_ne_true (h1 ▸ hc)
    have hn2 : ¬((v.completionFilter == CompletionFilter.completed
        && !(nt.isCompleted == true)) = true) := fun hc => Bool.false_ne_true (h2 ▸ hc)
    have hn3 : ¬((strTrim v.searchTerm != "" && !(matchesSearch v.searchTerm nt)) = true) :=
      fun hc => Bool.false_ne_true (h3 ▸ hc)
    have hn4 : ¬((nt.id != 0 && st.tasks.any (fun t => t.id == nt.id)) = true) := fun hc => by
      rw [h4, Bool.and_false] at hc
      exact Bool.false_ne_true hc
    simp only [handleRealtimeInsert]
    rw [if_neg hn1, if_neg hn2, if_neg hn3, if_neg hn4]
    refine ⟨?_, rfl, rfl⟩
    rw [Nat.add_sub_cancel_left, harith]

def mergeT3 : TaskWithUser := { id := 3, title := some "T3", created_at := 3 }

def mergeT4 : TaskWithUser := { id := 4, title := some "T4", created_at := 4 }

def mergeT5 : TaskWithUser := { id := 5, title := some "T5", created_at := 5 }

def mergeT6 : TaskWithUser := { id := 6, title := some "T6", created_at := 6 }

def mergeOpts : UseTasksOptions := { pageSize := 3 }

def mergeSt : EngineState :=
  { tasks := [mergeT5, mergeT4, mergeT3], error := none, isLoading := false,
    pagination := { currentPage := 1, totalPages := 2, totalCount := 5, pageSize := 3,
                    hasNextPage := true, hasPrevPage := false } }

/-- Witness for `handleRealtimeInsert_merge`, instantiating the spec's
scenario: cache `[T5, T4, T3]` (newest-first, pageSize 3, totalCount 5)
receiving a matching insert event for `T6` becomes `[T6, T5, T4]` with
`totalCount = 6` and `totalPages = 2`. -/
theorem handleRealtimeInsert_merge_witness :
    (handleRealtimeInsert mergeOpts mergeSt (some mergeT6)).tasks = [mergeT6, mergeT5, mergeT4]
    ∧ (handleRealtimeInsert mergeOpts mergeSt (some mergeT6)).pagination.totalCount = 6
    ∧ (handleRealtimeInsert mergeOpts mergeSt (some mergeT6)).pagination.totalPages = 2 := by
  obtain ⟨-, -, -, hb⟩ := handleRealtimeInsert_merge mergeOpts mergeSt mergeT6 (by decide)
  obtain ⟨ht, hc, hp⟩ := hb (by decide) (by decide) (by decide) (by decide)
  refine ⟨?_, ?_, ?_⟩
  · rw [ht]
    decide
  · rw [hc]
    decide
  · rw [hp]
    decide

/-! ## C8 -/

/-- C8 (amended): for an insert event whose task id is nonzero (truthy in
the source's guard) and already occurs in the cache, the handler leaves
the task list unchanged, so the number of entries with that id — in
particular, exactly one when it was one — is preserved. -/
theorem handleRealtimeInsert_dedup (v : UseTasksOptions) (st : EngineState)
    (nt : TaskWithUser) (h1 : nt.id ≠ 0)
    (h2 : st.tasks.any (fun t => t.id == nt.id) = true) :
    (handleRealtimeInsert v st (some nt)).tasks = st.tasks
    ∧ (handleRealtimeInsert v st (some nt)).tasks.countP (fun t => t.id == nt.id)
        = st.tasks.countP (fun t => t.id == nt.id) := by
  have htasks : (handleRealtimeInsert v st (some nt)).tasks = st.tasks := by
    simp only [handleRealtimeInsert]
    by_cases c1 : (v.completionFilter == CompletionFilter.active && nt.isCompleted == true) = true
    · rw [if_pos c1]
    · rw [if_neg c1]
      by_cases c2 :
          (v.completionFilter == CompletionFilter.completed && !(nt.isCompleted == true)) = true
      · rw [if_pos c2]
      · rw [if_neg c2]
        by_cases c3 : (strTrim v.searchTerm != "" && !(matchesSearch v.searchTerm nt)) = true
        · rw [if_pos c3]
        · rw [if_neg c3]
          have hg : (nt.id != 0 && st.tasks.any (fun t => t.id == nt.id)) = true := by
            rw [h2, Bool.and_true]
            exact bne_iff_ne.2 h1
          rw [if_pos hg]
  exact ⟨htasks, by rw [htasks]⟩

def dedupCexTask : TaskWithUser := { id := 0, title := some "Zero" }

def dedupCexOpts : UseTasksOptions := { pageSize := 3 }

def dedupCexSt : EngineState :=
  { tasks := [dedupCexTask], error := none, isLoading := false,
    pagination := { currentPage := 1, totalPages := 1, totalCount := 1, pageSize := 3,
                    hasNextPage := false, hasPrevPage := false } }

/-- C8 counterexample: a task with id 0 (falsy for the source's
`newTask.id && ...` guard) that is already the sole cache entry is
inserted again by its own insert event, leaving two entries with id 0 —
the claimed exactly-once property fails. -/
theorem handleRealtimeInsert_dedup_cex :
    dedupCexSt.tasks.countP (fun t => t.id == dedupCexTask.id) = 1
    ∧ (handleRealtimeInsert dedupCexOpts dedupCexSt (some dedupCexTask)).tasks.countP
        (fun t => t.id == dedupCexTask.id) = 2 := by
  decide

def dedupWitTask : TaskWithUser := { id := 7, title := some "Seven" }

def dedupWitSt : EngineState :=
  { tasks := [dedupWitTask], error := none, isLoading := false,
    pagination := { currentPage := 1, totalPages := 1, totalCount := 1, pageSize := 3,
                    hasNextPage := false, hasPrevPage := false } }

/-- Witness for `handleRealtimeInsert_dedup`: re-delivering the insert
event of the already-present task with id 7 leaves the list unchanged. -/
theorem handleRealtimeInsert_dedup_witness :
    (handleRealtimeInsert dedupCexOpts dedupWitSt (some dedupWitTask)).tasks = dedupWitSt.tasks
    ∧ (handleRealtimeInsert dedupCexOpts dedupWitSt (some dedupWitTask)).tasks.countP
        (fun t => t.id == dedupWitTask.id)
        = dedupWitSt.tasks.countP (fun t => t.id == dedupWitTask.id) :=
  handleRealtimeInsert_dedup dedupCexOpts dedupWitSt dedupWitTask (by decide) (by decide)

/-! ## C10 -/

/-- C10 (amended): when an insert event passes the active filters, its
task id is nonzero and already present in the cache, the task list is
left unchanged by deduplication, yet `totalCount` is still incremented
and `totalPages` recomputed from the incremented count — each duplicate
delivery with a truthy id inflates the reported totals without adding an
entry (with id 0 the guard is skipped and a duplicate entry is added as
well). -/
theorem handleRealtimeInsert_count_inflation (v : UseTasksOptions) (st : EngineState)
    (nt : TaskWithUser) (h1 : nt.id ≠ 0)
    (h2 : st.tasks.any (fun t => t.id == nt.id) = true)
    (h3 : (v.completionFilter == CompletionFilter.active && nt.isCompleted == true) = false)
    (h4 : (v.completionFilter == CompletionFilter.completed && !(nt.isCompleted == true)) = false)
    (h5 : (strTrim v.searchTerm != "" && !(matchesSearch v.searchTerm nt)) = false) :
    (handleRealtimeInsert v st (some nt)).tasks = st.tasks
    ∧ (handleRealtimeInsert v st (some nt)).pagination.totalCount
        = st.pagination.totalCount + 1
    ∧ (handleRealtimeInsert v st (some nt)).pagination.totalPages
        = ceilDiv (st.pagination.totalCount + 1) st.pagination.pageSize := by
  have hn1 : ¬((v.completionFilter == CompletionFilter.active
      && nt.isCompleted == true) = true) := fun hc => Bool.false_ne_true (h3 ▸ hc)
  have hn2 : ¬((v.completionFilter == CompletionFilter.completed
      && !(nt.isCompleted == true)) = true) := fun hc => Bool.false_ne_true (h4 ▸ hc)
  have hn3 : ¬((strTrim v.searchTerm != "" && !(matchesSearch v.searchTerm nt)) = true) :=
    fun hc => Bool.false_ne_true (h5 ▸ hc)
  have hg : (nt.id != 0 && st.tasks.any (fun t => t.id == nt.id)) = true := by
    rw [h2, Bool.and_true]
    exact bne_iff_ne.2 h1
  simp only [handleRealtimeInsert]
  rw [if_neg hn1, if_neg hn2, if_neg hn3, if_pos hg]
  exact ⟨rfl, rfl, rfl⟩

def inflCexTask : TaskWithUser := { id := 0, title := some "Dup", created_at := 1 }

def inflCexOpts : UseTasksOptions := { pageSize := 5 }

def inflCexSt : EngineState :=
  { tasks := [inflCexTask], error := none, isLoading := false,
    pagination := { currentPage := 1, totalPages := 1, totalCount := 1, pageSize := 5,
                    hasNextPage := false, hasPrevPage := false } }

/-- C10 counterexample: for an insert event with id 0 of a task that
passes the filters and is already present, the task list is NOT left
unchanged (the falsy id skips the dedup guard and a duplicate entry is
inserted), contradicting the claim's "task list is left unchanged". -/
theorem handleRealtimeInsert_count_inflation_cex :
    inflCexTask ∈ inflCexSt.tasks
    ∧ (handleRealtimeInsert inflCexOpts inflCexSt (some inflCexTask)).tasks ≠ inflCexSt.tasks
    ∧ (handleRealtimeInsert inflCexOpts inflCexSt (some inflCexTask)).pagination.totalCount
        = inflCexSt.pagination.totalCount + 1 := by
  decide

def inflWitTask : TaskWithUser := { id := 9, title := some "Nine", created_at := 2 }

def inflWitSt : EngineState :=
  { tasks := [inflWitTask], error := none, isLoading := false,
    pagination := { currentPage := 1, totalPages := 1, totalCount := 1, pageSize := 5,
                    hasNextPage := false, hasPrevPage := false } }

/-- Witness for `handleRealtimeInsert_count_inflation`: a duplicate
insert event for present id 9 leaves the single-entry list unchanged but
raises `totalCount` from 1 to 2. -/
theorem handleRealtimeInsert_count_inflation_witness :
    (handleRealtimeInsert inflCexOpts inflWitSt (some inflWitTask)).tasks = inflWitSt.tasks
    ∧ (handleRealtimeInsert inflCexOpts inflWitSt (some inflWitTask)).pagination.totalCount
        = inflWitSt.pagination.totalCount + 1
    ∧ (handleRealtimeInsert inflCexOpts inflWitSt (some inflWitTask)).pagination.totalPages
        = ceilDiv (inflWitSt.pagination.totalCount + 1) inflWitSt.pagination.pageSize :=
  handleRealtimeInsert_count_inflation inflCexOpts inflWitSt inflWitTask
    (by decide) (by decide) (by decide) (by decide) (by decide)

/-! ## C5 -/

/-- C5 (amended): for an id absent from the cache, `update` and `delete`
fail with the local "Task not found" precondition error and issue no
request to the Data Service, leaving the cache unchanged; `toggle`,
however, performs no existence check — it always issues the remote
update, which is merely a no-op on the local cache when the id is
absent. -/
theorem absentId_mutations (st : EngineState) (id : Int) (u : TaskUpdate) (cur : Bool)
    (sr : Except JsErr Unit)
    (h : st.tasks.find? (fun t => t.id == id) = none) :
    (updateTask st id u sr).remoteCalled = false
    ∧ (updateTask st id u sr).state.error = some "Task not found"
    ∧ (updateTask st id u sr).state.tasks = st.tasks
    ∧ (deleteTask st id sr).remoteCalled = false
    ∧ (deleteTask st id sr).state.error = some "Task not found"
    ∧ (deleteTask st id sr).state.tasks = st.tasks
    ∧ (toggleTask st id cur sr).remoteCalled = true
    ∧ (toggleTask st id cur sr).state.tasks = st.tasks := by
  have habs : ∀ t ∈ st.tasks, (t.id == id) = false := by
    intro t ht
    simpa using List.find?_eq_none.1 h t ht
  have hmapid : ∀ (g : TaskWithUser → TaskWithUser),
      st.tasks.map (fun t => if t.id == id then g t else t) = st.tasks := by
    intro g
    calc st.tasks.map (fun t => if t.id == id then g t else t)
        = st.tasks.map (fun t => t) :=
          List.map_congr_left fun t ht => if_neg (by simp [habs t ht])
      _ = st.tasks := List.map_id st.tasks
  refine ⟨?_, ?_, ?_, ?_, ?_, ?_, ?_, ?_⟩
  · simp [updateTask, h]
  · simp [updateTask, h]
  · simp [updateTask, h]
  · simp [deleteTask, h]
  · simp [deleteTask, h]
  · simp [deleteTask, h]
  · cases sr with
    | ok r => simp [toggleTask]
    | error e => simp [toggleTask]
  · cases sr with
    | ok r =>
      simp only [toggleTask]
      exact hmapid _
    | error e =>
      simp only [toggleTask]
      rw [hmapid _, hmapid _]

def togCexSt : EngineState :=
  { tasks := [], error := none, isLoading := false,
    pagination := { currentPage := 1, totalPages := 1, totalCount := 0, pageSize := 10,
                    hasNextPage := false, hasPrevPage := false } }

/-- C5 counterexample: `toggle` on an id absent from the (empty) cache
does not fail with "not found" and does contact the Data Service — the
claimed local precondition check does not exist for `toggle`. -/
theorem toggleTask_no_precondition_cex :
    (toggleTask togCexSt 1 false (.ok ())).remoteCalled = true
    ∧ (toggleTask togCexSt 1 false (.ok ())).state.error ≠ some "Task not found" := by
  decide

/-- Witness for `absentId_mutations` at an empty cache and id 1. -/
theorem absentId_mutations_witness :
    (updateTask togCexSt 1 { title := some "X" } (.ok ())).remoteCalled = false
    ∧ (updateTask togCexSt 1 { title := some "X" } (.ok ())).state.error
        = some "Task not found"
    ∧ (updateTask togCexSt 1 { title := some "X" } (.ok ())).state.tasks = togCexSt.tasks
    ∧ (deleteTask togCexSt 1 (.ok ())).remoteCalled = false
    ∧ (deleteTask togCexSt 1 (.ok ())).state.error = some "Task not found"
    ∧ (deleteTask togCexSt 1 (.ok ())).state.tasks = togCexSt.tasks
    ∧ (toggleTask togCexSt 1 false (.ok ())).remoteCalled = true
    ∧ (toggleTask togCexSt 1 false (.ok ())).state.tasks = togCexSt.tasks :=
  absentId_mutations togCexSt 1 { title := some "X" } false (.ok ()) (by decide)

/-! ## C7 -/

/-- C7 (amended): when the task is present and the Data Service delete
fails, the removed snapshot is re-appended at the tail, the pagination
metadata (in particular `totalCount`) is unchanged, the operation did
contact the Data Service, and the surfaced error is the failure's own
message when the thrown value is an `Error` instance, falling back to
"Failed to delete task" otherwise. -/
theorem deleteTask_failure_rollback (st : EngineState) (id : Int) (e : JsErr)
    (victim : TaskWithUser)
    (h : st.tasks.find? (fun t => t.id == id) = some victim) :
    (deleteTask st id (.error e)).state.tasks
        = st.tasks.filter (fun t => !(t.id == id)) ++ [victim]
    ∧ (deleteTask st id (.error e)).state.pagination = st.pagination
    ∧ (deleteTask st id (.error e)).state.error
        = some (jsMessage e "Failed to delete task")
    ∧ (deleteTask st id (.error e)).remoteCalled = true := by
  simp [deleteTask, h]

def delCexTask : TaskWithUser := { id := 4, title := some "Four" }

def delCexSt : EngineState :=
  { tasks := [delCexTask], error := none, isLoading := false,
    pagination := { currentPage := 1, totalPages := 1, totalCount := 1, pageSize := 10,
                    hasNextPage := false, hasPrevPage := false } }

/-- C7 counterexample: when the Data Service failure is an `Error`
instance (here with message "boom"), the surfaced error is that
message, not the claimed constant "Failed to delete task". -/
theorem deleteTask_error_message_cex :
    delCexSt.tasks.find? (fun t => t.id == 4) = some delCexTask
    ∧ (deleteTask delCexSt 4 (.error (some "boom"))).state.error ≠ some "Failed to delete task"
    ∧ (deleteTask delCexSt 4 (.error (some "boom"))).state.error = some "boom" := by
  decide

def delWitTask : TaskWithUser := { id := 4, title := some "FourW" }

def delWitSt : EngineState :=
  { tasks := [delWitTask], error := none, isLoading := false,
    pagination := { currentPage := 1, totalPages := 1, totalCount := 1, pageSize := 10,
                    hasNextPage := false, hasPrevPage := false } }

/-- Witness for `deleteTask_failure_rollback`: a failing delete of
present id 4 with a non-`Error` thrown value restores the cache with the
snapshot appended and surfaces "Failed to delete task". -/
theorem deleteTask_failure_rollback_witness :
    (deleteTask delWitSt 4 (.error (none : Option String))).state.tasks
        = delWitSt.tasks.filter (fun t => !(t.id == 4)) ++ [delWitTask]
    ∧ (deleteTask delWitSt 4 (.error (none : Option String))).state.pagination
        = delWitSt.pagination
    ∧ (deleteTask delWitSt 4 (.error (none : Option String))).state.error
        = some (jsMessage (none : Option String) "Failed to delete task")
    ∧ (deleteTask delWitSt 4 (.error (none : Option String))).remoteCalled = true :=
  deleteTask_failure_rollback delWitSt 4 (none : Option String) delWitTask (by decide)

/-! ## C3 -/

theorem querySlice_length (l : List TaskWithUser) (f n : Nat) (hn : 0 < n) :
    (querySlice l f (f + n - 1)).length ≤ n := by
  unfold querySlice
  have ht : f + n - 1 + 1 - f = n := by omega
  rw [ht, List.length_take]
  exact Nat.min_le_left _ _

theorem computeTotalPages_zero {ps : Nat} (hps : 0 < ps) : computeTotalPages 0 ps = 1 := by
  unfold computeTotalPages ceilDiv
  dsimp only
  exact if_pos (Nat.div_eq_of_lt (by omega))

theorem computeTotalPages_eq_ceilDiv {total ps : Nat} (htot : 0 < total) (hps : 0 < ps) :
    computeTotalPages total ps = ceilDiv total ps := by
  unfold computeTotalPages
  have := ceilDiv_pos htot hps
  dsimp only
  rw [if_neg (by omega)]

def floorCexSt : EngineState :=
  { tasks := [{ id := 1, title := some "One" }], error := none, isLoading := false,
    pagination := { currentPage := 1, totalPages := 1, totalCount := 1, pageSize := 10,
                    hasNextPage := false, hasPrevPage := false } }

/-- C3 counterexample: a delete event for the last remaining task
(totalCount 1 → 0, pageSize 10) recomputes `totalPages` without the
minimum-1 floor, leaving `totalPages = 0` where the claimed invariant
demands `max 1 (ceil(totalCount / pageSize)) = 1`. -/
theorem handleRealtimeDelete_floor_cex :
    (handleRealtimeDelete floorCexSt 1).pagination.totalCount = 0
    ∧ (handleRealtimeDelete floorCexSt 1).pagination.totalPages = 0
    ∧ (handleRealtimeDelete floorCexSt 1).pagination.totalPages
        ≠ max 1 (ceilDiv (handleRealtimeDelete floorCexSt 1).pagination.totalCount
            (handleRealtimeDelete floorCexSt 1).pagination.pageSize) := by
  decide

/-- C3 (amended): after a successful full fetch the cache holds at most
`pageSize` entries and `totalPages = ceil(totalCount/pageSize)` with the
minimum-1 floor (`totalPages ≥ 1`); the insert, update and delete event
handlers preserve the weakened consistency `stateConsistent` — the exact
ceiling relation, but without the floor, so `totalPages` is 0 (not 1)
when `totalCount` reaches 0 through the update-removal or delete
handlers. -/
theorem pagination_invariant_amended (st : EngineState) (v : UseTasksOptions)
    (total : Nat) (db : List TaskWithUser) (nt : Option TaskWithUser)
    (uid : Int) (ut : Option TaskWithUser) (did : Int)
    (hps : 0 < v.pageSize) (heq : st.pagination.pageSize = v.pageSize)
    (hst : stateConsistent st) :
    stateConsistent (fetchTasks st v (.ok (some total)) (runDataQuery v db)).1
    ∧ 1 ≤ (fetchTasks st v (.ok (some total)) (runDataQuery v db)).1.pagination.totalPages
    ∧ stateConsistent (handleRealtimeInsert v st nt)
    ∧ stateConsistent (handleRealtimeUpdate v st uid ut)
    ∧ stateConsistent (handleRealtimeDelete st did) := by
  refine ⟨?_, ?_, ?_, ?_, ?_⟩
  · simp only [fetchTasks, runDataQuery, Option.getD_some]
    refine ⟨querySlice_length _ _ _ hps, ?_⟩
    rcases Nat.eq_zero_or_pos total with h0 | hpos
    · subst h0
      exact Or.inr ⟨rfl, computeTotalPages_zero hps⟩
    · exact Or.inl (computeTotalPages_eq_ceilDiv hpos hps)
  · simp only [fetchTasks, runDataQuery, Option.getD_some]
    exact computeTotalPages_pos total v.pageSize
  · cases nt with
    | none => exact hst
    | some n =>
      simp only [handleRealtimeInsert]
      split
      · exact hst
      split
      · exact hst
      split
      · exact hst
      refine ⟨?_, Or.inl rfl⟩
      split
      · exact hst.1
      · rw [Nat.add_sub_cancel_left] at *
        calc (List.take v.pageSize _).length ≤ v.pageSize := by
              rw [List.length_take]
              exact Nat.min_le_left _ _
          _ = st.pagination.pageSize := heq.symm
  · cases ut with
    | none => exact hst
    | some u' =>
      simp only [handleRealtimeUpdate]
      split_ifs
      all_goals first
        | exact ⟨le_trans (List.length_filter_le _ _) hst.1, Or.inl rfl⟩
        | exact ⟨by rw [List.length_map]; exact hst.1, hst.2⟩
  · refine ⟨?_, Or.inl rfl⟩
    calc (st.tasks.filter _).length ≤ st.tasks.length := List.length_filter_le _ _
      _ ≤ st.pagination.pageSize := hst.1

def pagWitTask : TaskWithUser := { id := 11, title := some "Inv", created_at := 11 }

def pagWitOpts : UseTasksOptions := { pageSize := 3 }

def pagWitSt : EngineState :=
  { tasks := [pagWitTask], error := none, isLoading := false,
    pagination := { currentPage := 1, totalPages := 1, totalCount := 1, pageSize := 3,
                    hasNextPage := false, hasPrevPage := false } }

/-- Witness for `pagination_invariant_amended` at a consistent
single-task state with page size 3. -/
theorem pagination_invariant_amended_witness :
    stateConsistent (fetchTasks pagWitSt pagWitOpts (.ok (some 4))
        (runDataQuery pagWitOpts [pagWitTask])).1
    ∧ 1 ≤ (fetchTasks pagWitSt pagWitOpts (.ok (some 4))
        (runDataQuery pagWitOpts [pagWitTask])).1.pagination.totalPages
    ∧ stateConsistent (handleRealtimeInsert pagWitOpts pagWitSt (some pagWitTask))
    ∧ stateConsistent (handleRealtimeUpdate pagWitOpts pagWitSt 11 (some pagWitTask))
    ∧ stateConsistent (handleRealtimeDelete pagWitSt 11) :=
  pagination_invariant_amended pagWitSt pagWitOpts 4 [pagWitTask] (some pagWitTask)
    11 (some pagWitTask) 11 (by decide) (by decide) (by decide)
